import Mathlib

/-!
Verification of the CalDAV protocol-adapter core of the repository:
server discovery (`discoverServer` / `findCalendarHomeSet`), calendar
enumeration (`findCalendars`), event querying (`CalendarEvents`) and the
normalized item mapper (`newCalendarItem` and the `calendarItem` accessors).

The Go code is shallowly embedded: Go `time.Time` becomes an integer count
of nanoseconds since the Go zero time, external collaborators (the WebDAV
transport, the event-range query constructor, and the enumeration-conversion
tables of the external `convert` package) become explicit function
parameters, Go's fallible calls become `Except`, and a run that would panic
(nil-pointer dereference or out-of-range slice index) is an explicit
`Outcome.panic` value.
-/

instance {ε α : Type} [DecidableEq ε] [DecidableEq α] : DecidableEq (Except ε α) := fun a b =>
  match a, b with
  | .ok a, .ok b =>
    if h : a = b then .isTrue (by rw [h]) else .isFalse (by intro hc; cases hc; exact h rfl)
  | .error a, .error b =>
    if h : a = b then .isTrue (by rw [h]) else .isFalse (by intro hc; cases hc; exact h rfl)
  | .ok _, .error _ => .isFalse (by intro hc; cases hc)
  | .error _, .ok _ => .isFalse (by intro hc; cases hc)

/-! ## Time

Go's `time.Time`, embedded as nanoseconds since the zero time
(January 1, year 1, 00:00:00 UTC). `time.Time.Truncate(d)` rounds down to a
multiple of `d` since the zero time (and returns the time unchanged for
`d <= 0`); `IsZero` tests for the zero time. -/

abbrev GoTime := Int

def nsPerMillisecond : Int := 1000000

def nsPerSecond : Int := 1000000000

/-- Go `time.Time.Truncate`: round `t` down to a multiple of `d` since the
zero time; a non-positive `d` leaves `t` unchanged. -/
def timeTruncate (d : Int) (t : GoTime) : GoTime :=
  if d ≤ 0 then t else t - t.emod d

/-- Go `time.Time.IsZero`. -/
def timeIsZero (t : GoTime) : Bool := t == 0

/-! ## Email addresses and enumerations -/

/-- Go `net/mail.Address`. -/
structure MailAddress where
  name : String
  address : String
deriving DecidableEq

/-- The `emailAddress` struct of the item mapper; `Name()` and `Address()`
read its two fields. -/
structure EmailAddress where
  name : String
  address : String
deriving DecidableEq

/-- `newEmailAddress` builds an `emailAddress` from a `mail.Address`. -/
def newEmailAddress (email : MailAddress) : EmailAddress :=
  { name := email.name, address := email.address }

/-- The external `rsvp.MeetingResponseType` enumeration; the mapper only
distinguishes `Unknown` by name, the other variants are carried through
from the external conversion table. -/
inductive MeetingResponseType where
  | Unknown
  | Organizer
  | Tentative
  | Accepted
  | Declined
  | NotResponded
deriving DecidableEq

/-- The external `sensitivity.Sensitivity` enumeration (opaque here: the
mapper only stores the value produced by the external conversion). -/
inductive Sensitivity where
  | SensUnknown
  | Normal
  | Personal
  | PrivateEvent
  | Confidential
deriving DecidableEq

/-! ## Raw protocol event (`components.Event` of the icalendar library) -/

/-- Go `values.OrganizerContact`: a wrapper around a `mail.Address` entry. -/
structure OrganizerContact where
  entry : MailAddress
deriving DecidableEq

/-- Go `values.Attendee`: a `mail.Address` entry plus an iCalendar
participation status (`PARTSTAT`, a string at protocol level). -/
structure RawAttendee where
  entry : MailAddress
  participationStatus : String
deriving DecidableEq

/-- A Go interface value of type `properties.CanEncodeValue` as the mapper
receives it from the parsed event's `Url` / `Location` pointer fields:
either the nil interface (`value == nil`), a non-nil interface wrapping a
nil pointer (`reflect.ValueOf(value).IsNil()`), or a live value whose
`EncodeICalValue` call yields a string or an error. -/
inductive CanEncodeValue where
  | nilInterface
  | nilPointer
  | value (encodeICalValue : Except String String)
deriving DecidableEq

/-- The fields of the parsed `components.Event` the adapter reads.
`DateStart`, `DateEnd` and `Created` are read through `NativeTime()` and
embedded directly as times; `LastModified` may be absent (nil pointer);
`RecurrenceId` backs the library's `IsRecurrence()` test. -/
structure Event where
  uid : String
  summary : String
  description : String
  url : CanEncodeValue
  dateStart : GoTime
  dateEnd : GoTime
  location : CanEncodeValue
  organizer : Option OrganizerContact
  attendees : List RawAttendee
  accessClassification : String
  created : GoTime
  lastModified : Option GoTime
  recurrenceId : Option GoTime
deriving DecidableEq

/-! ## Calendar list entry and normalized item -/

/-- The `calendarListEntry` struct built by enumeration. -/
structure CalendarListEntry where
  path : String
  emailAddress : String
  displayName : String
  timeZone : String
deriving DecidableEq

/-- The mapper's `attendee` struct: an email address and a resolved
response type. -/
structure Attendee where
  emailAddress : EmailAddress
  responseType : MeetingResponseType
deriving DecidableEq

/-- The `calendarItem` struct: the embedded raw event, the owning
calendar, and the fields computed once at construction. -/
structure CalendarItem where
  event : Event
  calendar : CalendarListEntry
  responseType : MeetingResponseType
  organizer : Option EmailAddress
  attendees : List Attendee
  sensitivity : Sensitivity
deriving DecidableEq

/-- `unsafeToString`: empty string for the nil interface and for a non-nil
interface wrapping a nil pointer; an `EncodeICalValue` error is logged and
degraded to the empty string; otherwise the encoded string. -/
def unsafeToString : CanEncodeValue → String
  | .nilInterface => ""
  | .nilPointer => ""
  | .value enc =>
    match enc with
    | .error _ => ""
    | .ok s => s

/-- `resolveOrganizer`: a nil organizer (e.g. an appointment) maps to an
absent organizer; otherwise the organizer's address entry. -/
def resolveOrganizer : Option OrganizerContact → Option EmailAddress
  | none => none
  | some organizer => some (newEmailAddress organizer.entry)

/-- `resolveAttendees`: map each raw attendee to an `attendee`, translating
its participation status through the external conversion
`convert.ParticipationStatusToMeetingResponseType`, passed here as the
explicit parameter `convertPS`. -/
def resolveAttendees (convertPS : String → MeetingResponseType)
    (eventAttendees : List RawAttendee) : List Attendee :=
  eventAttendees.map (fun a =>
    { emailAddress := newEmailAddress a.entry,
      responseType := convertPS a.participationStatus })

/-- `findResponseType`: the response type of the first attendee whose
address equals (case-sensitive `==`) the given address; `rsvp.Unknown`
when no attendee matches. -/
def findResponseType (emailAddress : String) : List Attendee → MeetingResponseType
  | [] => .Unknown
  | attendee :: rest =>
    if attendee.emailAddress.address == emailAddress then attendee.responseType
    else findResponseType emailAddress rest

/-- `newCalendarItem`: the total mapping of a raw event plus its owning
calendar into a normalized item. `convertPS` and `convertAC` are the two
external conversion tables of the `convert` package
(`ParticipationStatusToMeetingResponseType` and
`EventAccessClassificationToSensitivity`), passed as explicit parameters. -/
def newCalendarItem (convertPS : String → MeetingResponseType)
    (convertAC : String → Sensitivity)
    (event : Event) (parentCalendar : CalendarListEntry) : CalendarItem :=
  let attendees := resolveAttendees convertPS event.attendees
  { event := event,
    calendar := parentCalendar,
    responseType := findResponseType parentCalendar.emailAddress attendees,
    organizer := resolveOrganizer event.organizer,
    attendees := attendees,
    sensitivity := convertAC event.accessClassification }

/-! ## `calendarItem` accessors -/

def CalendarItem.UID (item : CalendarItem) : String := item.event.uid

def CalendarItem.Subject (item : CalendarItem) : String := item.event.summary

def CalendarItem.URL (item : CalendarItem) : String := unsafeToString item.event.url

def CalendarItem.Start (item : CalendarItem) : GoTime := item.event.dateStart

def CalendarItem.End (item : CalendarItem) : GoTime := item.event.dateEnd

def CalendarItem.Location (item : CalendarItem) : String := unsafeToString item.event.location

def CalendarItem.ResponseType (item : CalendarItem) : MeetingResponseType := item.responseType

def CalendarItem.Organizer (item : CalendarItem) : Option EmailAddress := item.organizer

def CalendarItem.Attendees (item : CalendarItem) : List Attendee := item.attendees

/-- `IsAllDay`: both start and end, truncated to `time.Millisecond`,
are the zero time. -/
def CalendarItem.IsAllDay (item : CalendarItem) : Bool :=
  timeIsZero (timeTruncate nsPerMillisecond item.Start) &&
    timeIsZero (timeTruncate nsPerMillisecond item.End)

def CalendarItem.CreatedAt (item : CalendarItem) : GoTime := item.event.created

/-- `LastModifiedAt` falls back to `CreatedAt` when the raw field is nil. -/
def CalendarItem.LastModifiedAt (item : CalendarItem) : GoTime :=
  match item.event.lastModified with
  | none => item.CreatedAt
  | some t => t

def CalendarItem.CalendarID (item : CalendarItem) : String := item.calendar.path

def CalendarItem.CalendarDisplayName (item : CalendarItem) : String := item.calendar.displayName

def CalendarItem.CalendarItemID (item : CalendarItem) : String := item.event.uid

def CalendarItem.TimeZone (item : CalendarItem) : String := item.calendar.timeZone

/-! ## Errors

Error values are data: transport failures come from the transport oracle,
`url.QueryUnescape` produces an escape error, and `errors.WF11301` wraps a
list of causes into one aggregate error
(`common.NewAggregateError(wf11301, errors...)`). -/

inductive Err where
  | transport (tag : String)
  | escape (s : String)
  | aggregate (message : String) (causes : List Err)

/-- The WF11301 aggregate-error message constant. -/
def wf11301 : String := "WF11301: all attempts failed with the following errors:"

/-- `errors.WF11301`: aggregate the given causes, preserving order. -/
def WF11301 (errs : List Err) : Err := .aggregate wf11301 errs

/-! ## `url.QueryUnescape` -/

/-- `net/url.ishex`. -/
def ishex (c : Char) : Bool :=
  ('0' ≤ c && c ≤ '9') || ('a' ≤ c && c ≤ 'f') || ('A' ≤ c && c ≤ 'F')

/-- `net/url.unhex`. -/
def unhex (c : Char) : Nat :=
  if '0' ≤ c && c ≤ '9' then c.toNat - '0'.toNat
  else if 'a' ≤ c && c ≤ 'f' then c.toNat - 'a'.toNat + 10
  else if 'A' ≤ c && c ≤ 'F' then c.toNat - 'A'.toNat + 10
  else 0

/-- `net/url.unescape` in query-component mode, over the character list:
`%xy` decodes from hex (an incomplete or non-hex escape is an
`url.EscapeError` carrying the offending slice of up to three characters),
`+` decodes to a space, everything else is copied. -/
def queryUnescapeList : List Char → Except Err (List Char)
  | [] => .ok []
  | '%' :: c1 :: c2 :: rest =>
    if ishex c1 && ishex c2 then
      match queryUnescapeList rest with
      | .error e => .error e
      | .ok t => .ok (Char.ofNat (16 * unhex c1 + unhex c2) :: t)
    else .error (.escape (String.mk ['%', c1, c2]))
  | '%' :: rest => .error (.escape (String.mk ('%' :: rest)))
  | '+' :: rest =>
    match queryUnescapeList rest with
    | .error e => .error e
    | .ok t => .ok (' ' :: t)
  | c :: rest =>
    match queryUnescapeList rest with
    | .error e => .error e
    | .ok t => .ok (c :: t)

/-- `url.QueryUnescape`. -/
def queryUnescape (s : String) : Except Err String :=
  match queryUnescapeList s.data with
  | .error e => .error e
  | .ok t => .ok (String.mk t)

/-! ## WebDAV entities and the transport oracle -/

/-- `entities.CurrentUserPrincipal` (its `Href` value). -/
structure CurrentUserPrincipal where
  href : String
deriving DecidableEq

/-- `entities.CalendarHomeSet` (its `Href` value). -/
structure CalendarHomeSet where
  href : String
deriving DecidableEq

/-- One component entry of a supported-calendar-component-set. -/
structure DavComponent where
  name : String
deriving DecidableEq

/-- `entities.SupportedCalendarComponentSet`. -/
structure SupportedCalendarComponentSet where
  components : List DavComponent
deriving DecidableEq

/-- The nested VTIMEZONE component carrying a time-zone id. -/
structure TimeZoneComponent where
  id : String
deriving DecidableEq

/-- `entities.Prop`: the property fields the adapter reads; pointer fields
are optional. -/
structure DavProp where
  currentUserPrincipal : Option CurrentUserPrincipal := none
  calendarHomeSet : Option CalendarHomeSet := none
  displayName : String := ""
  calendarTimezone : Option TimeZoneComponent := none
  supportedCalendarComponentSet : Option SupportedCalendarComponentSet := none
deriving DecidableEq

/-- `entities.PropStat`: a status line plus a property bag. -/
structure PropStat where
  status : String
  prop : DavProp
deriving DecidableEq

/-- One response of a multistatus body. -/
structure DavResponse where
  href : String
  propStats : List PropStat
deriving DecidableEq

/-- `entities.Multistatus`. -/
structure Multistatus where
  responses : List DavResponse
deriving DecidableEq

/-- The WebDAV depth header of a Propfind. -/
inductive DavDepth where
  | zero
  | one
deriving DecidableEq

/-- Which of the three fixed Propfind request bodies is sent. -/
inductive PropfindBody where
  | currentUserPrincipalReq
  | calendarHomeSetReq
  | calendarsReq
deriving DecidableEq

/-- The transport oracle: the observable behaviour of
`client.WebDAV().Propfind(path, depth, body)` for one fixed server and
HTTP client. -/
abbrev PropfindFn := String → DavDepth → PropfindBody → Except Err Multistatus

/-- The result of running a Go function that can also panic: a value, a
returned error, or a runtime panic (nil dereference / index out of
range). -/
inductive Outcome (α : Type) where
  | ok (val : α)
  | err (e : Err)
  | panic (msg : String)

/-- Does the outcome carry a returned (non-panic) error? -/
def Outcome.isErr {α : Type} : Outcome α → Bool
  | .err _ => true
  | _ => false

/-- Does the outcome carry a success value? -/
def Outcome.isOk {α : Type} : Outcome α → Bool
  | .ok _ => true
  | _ => false

/-! ## Discovery -/

/-- `findCalendarHomeSet`: the two chained zero-depth property queries of
one discovery candidate. A transport error or an `url.QueryUnescape`
error is returned unchanged; indexing `Responses[0]` / `PropStats[0]` on
an empty slice and dereferencing a nil `CurrentUserPrincipal` panic; the
final `CalendarHomeSet` pointer is returned as-is (possibly nil) with no
error. -/
def findCalendarHomeSet (pf : PropfindFn) (path : String) :
    Outcome (Option CalendarHomeSet) :=
  match pf path .zero .currentUserPrincipalReq with
  | .error e => .err e
  | .ok multistatus =>
    match multistatus.responses with
    | [] => .panic "index out of range"
    | response :: _ =>
      match response.propStats with
      | [] => .panic "index out of range"
      | propStat :: _ =>
        match propStat.prop.currentUserPrincipal with
        | none => .panic "nil pointer dereference"
        | some principal =>
          match queryUnescape principal.href with
          | .error e => .err e
          | .ok principalPath =>
            match pf principalPath .zero .calendarHomeSetReq with
            | .error e => .err e
            | .ok multistatus2 =>
              match multistatus2.responses with
              | [] => .panic "index out of range"
              | response2 :: _ =>
                match response2.propStats with
                | [] => .panic "index out of range"
                | propStat2 :: _ => .ok propStat2.prop.calendarHomeSet

/-- The fixed ordered candidate discovery paths. -/
def paths : List String := ["", "/caldav", "/caldav/st", "/.well-known/caldav"]

/-- The candidate loop of `discoverServer`: try each path in order, record
each failure, stop at the first success; when all candidates fail, return
`errors.WF11301` over the recorded failures. -/
def discoverLoop (pf : PropfindFn) : List String → List Err → Outcome (Option CalendarHomeSet)
  | [], errs => .err (WF11301 errs)
  | path :: rest, errs =>
    match findCalendarHomeSet pf path with
    | .panic m => .panic m
    | .err e => discoverLoop pf rest (errs ++ [e])
    | .ok calendarHomeSet => .ok calendarHomeSet

/-- `discoverServer` (the returned `*caldav.Client` is determined by the
fixed host and HTTP client, so only the calendar-home-set result is
modelled). -/
def discoverServer (pf : PropfindFn) : Outcome (Option CalendarHomeSet) :=
  discoverLoop pf paths []

/-- The call trace of `discoverServer`: the candidate paths for which it
invokes `findCalendarHomeSet`, in invocation order (defined by the same
recursion as `discoverLoop`). -/
def discoverLoopCalls (pf : PropfindFn) : List String → List String
  | [] => []
  | path :: rest =>
    match findCalendarHomeSet pf path with
    | .panic _ => [path]
    | .err _ => path :: discoverLoopCalls pf rest
    | .ok _ => [path]

/-- The candidate paths `discoverServer` actually attempts. -/
def discoverCalls (pf : PropfindFn) : List String := discoverLoopCalls pf paths

/-- The `client` struct (the fields the enumeration and query layers
read). -/
structure ClientState where
  path : String
  emailAddress : String
deriving DecidableEq

/-- `NewClient` after the transport is built: discover the server, then
URL-unescape the calendar-home-set href into the client's path.
Dereferencing `calendarHomeSet.Href` on a nil home set panics. -/
def newClient (pf : PropfindFn) (username : String) : Outcome ClientState :=
  match discoverServer pf with
  | .panic m => .panic m
  | .err e => .err e
  | .ok none => .panic "nil pointer dereference"
  | .ok (some calendarHomeSet) =>
    match queryUnescape calendarHomeSet.href with
    | .error e => .err e
    | .ok path => .ok { path := path, emailAddress := username }

/-! ## Calendar enumeration -/

/-- The `httpOK` status constant the per-item filter compares against. -/
def httpOK : String := "HTTP/1.1 200 OK"

/-- The `calendarType` component-name constant (`VEVENT`). -/
def calendarType : String := "VEVENT"

/-- `extractTimeZoneID`: empty string for a nil time zone, else its id. -/
def extractTimeZoneID : Option TimeZoneComponent → String
  | none => ""
  | some timeZone => timeZone.id

/-- The response loop of `findCalendars`: for each response, read
`PropStats[0]` (panicking when the slice is empty), keep the entry only
when the status equals `httpOK`, the supported-component-set is non-nil
and some component is named `VEVENT`; the kept entry's path is the
URL-unescaped response href (an unescape error aborts the whole call),
and entries are appended in response order. -/
def findCalendarsLoop (emailAddress : String) :
    List DavResponse → Outcome (List CalendarListEntry)
  | [] => .ok []
  | response :: rest =>
    match response.propStats with
    | [] => .panic "index out of range"
    | propertyStatus :: _ =>
      if propertyStatus.status == httpOK then
        match propertyStatus.prop.supportedCalendarComponentSet with
        | none => findCalendarsLoop emailAddress rest
        | some componentSet =>
          if componentSet.components.any (fun component => component.name == calendarType) then
            match queryUnescape response.href with
            | .error e => .err e
            | .ok path =>
              match findCalendarsLoop emailAddress rest with
              | .panic m => .panic m
              | .err e => .err e
              | .ok entries =>
                .ok ({ path := path,
                       emailAddress := emailAddress,
                       displayName := propertyStatus.prop.displayName,
                       timeZone := extractTimeZoneID propertyStatus.prop.calendarTimezone } :: entries)
          else findCalendarsLoop emailAddress rest
      else findCalendarsLoop emailAddress rest

/-- `findCalendars`: a depth-1 property query on the client's
calendar-home path, then the per-response filter loop. -/
def findCalendars (c : ClientState) (pf : PropfindFn) : Outcome (List CalendarListEntry) :=
  match pf c.path .one .calendarsReq with
  | .error e => .err e
  | .ok multistatus => findCalendarsLoop c.emailAddress multistatus.responses

/-! ## Event query -/

/-- The range query built once by `entities.NewEventRangeQuery` and shared
across calendars. -/
structure RangeQuery where
  startUTC : GoTime
  endUTC : GoTime
deriving DecidableEq

/-- The event-query oracle: the observable behaviour of
`calendarClient.QueryEvents(path, query)`. -/
abbrev QueryEventsFn := String → RangeQuery → Except Err (List Event)

/-- The external `entities.NewEventRangeQuery` constructor, passed as an
explicit function parameter. -/
abbrev MkRangeQueryFn := GoTime → GoTime → Except Err RangeQuery

/-- The per-calendar loop of `CalendarEvents`: query each enumerated
calendar strictly in order; a query error aborts the whole call with that
error; each calendar's raw events are mapped through `newCalendarItem`
with that calendar as owner and appended in server response order. -/
def CalendarEventsLoop (convertPS : String → MeetingResponseType)
    (convertAC : String → Sensitivity) (qe : QueryEventsFn) (query : RangeQuery) :
    List CalendarListEntry → Outcome (List CalendarItem)
  | [] => .ok []
  | calendar :: rest =>
    match qe calendar.path query with
    | .error e => .err e
    | .ok events =>
      match CalendarEventsLoop convertPS convertAC qe query rest with
      | .panic m => .panic m
      | .err e => .err e
      | .ok items =>
        .ok (events.map (fun event => newCalendarItem convertPS convertAC event calendar) ++ items)

/-- `client.CalendarEvents`: build the shared range query, enumerate the
calendars, then run the per-calendar query loop. -/
def CalendarEvents (c : ClientState) (pf : PropfindFn) (qe : QueryEventsFn)
    (mkQuery : MkRangeQueryFn) (convertPS : String → MeetingResponseType)
    (convertAC : String → Sensitivity) (startUTC endUTC : GoTime) :
    Outcome (List CalendarItem) :=
  match mkQuery startUTC endUTC with
  | .error e => .err e
  | .ok query =>
    match findCalendars c pf with
    | .panic m => .panic m
    | .err e => .err e
    | .ok calendars => CalendarEventsLoop convertPS convertAC qe query calendars

/-! ## Concrete sample inputs used by witnesses and counterexamples -/

/-- A sample participation-status conversion table (the real table lives in
the external `convert` package; the theorems quantify over it). -/
def sampleConvertPS : String → MeetingResponseType
  | "ACCEPTED" => .Accepted
  | "DECLINED" => .Declined
  | "TENTATIVE" => .Tentative
  | _ => .Unknown

/-- A sample access-classification conversion table. -/
def sampleConvertAC : String → Sensitivity := fun _ => .Normal

/-- A sample owning calendar whose account address is
`owner@example.com`. -/
def calSample : CalendarListEntry :=
  { path := "/cal", emailAddress := "owner@example.com",
    displayName := "Main", timeZone := "UTC" }

/-- An event whose start is two milliseconds past the zero time and whose
end is the zero time. -/
def eventC1 : Event :=
  { uid := "uid-1", summary := "", description := "", url := .nilInterface,
    dateStart := 2000000, dateEnd := 0, location := .nilInterface,
    organizer := none, attendees := [], accessClassification := "",
    created := 0, lastModified := none, recurrenceId := none }

/-- An event with a failing url encoder, a typed-nil location and no
organizer. -/
def eventC3 : Event :=
  { uid := "uid-3", summary := "s", description := "d",
    url := .value (.error "encode failed"), dateStart := 10, dateEnd := 20,
    location := .nilPointer, organizer := none, attendees := [],
    accessClassification := "PRIVATE", created := 1, lastModified := none,
    recurrenceId := none }

/-- An event whose organizer address equals the owning calendar's account
address and which has no attendees. -/
def eventC7 : Event :=
  { uid := "uid-7", summary := "", description := "", url := .nilInterface,
    dateStart := 0, dateEnd := 0, location := .nilInterface,
    organizer := some { entry := { name := "Owner", address := "owner@example.com" } },
    attendees := [], accessClassification := "", created := 0,
    lastModified := none, recurrenceId := none }

/-! ## Helper lemmas about the mapper -/

/-- When no attendee address matches, `findResponseType` is `Unknown`. -/
theorem findResponseType_no_match (emailAddress : String) (attendees : List Attendee)
    (h : ∀ a ∈ attendees, a.emailAddress.address ≠ emailAddress) :
    findResponseType emailAddress attendees = .Unknown := by
  induction attendees with
  | nil => rfl
  | cons a rest ih =>
    have hne : (a.emailAddress.address == emailAddress) = false :=
      beq_eq_false_iff_ne.mpr (h a (List.mem_cons_self a rest))
    simp only [findResponseType, hne, Bool.false_eq_true, if_false]
    exact ih (fun b hb => h b (List.mem_cons_of_mem a hb))

/-- `findResponseType` returns the response type of the first matching
attendee. -/
theorem findResponseType_first_match (emailAddress : String)
    (pre : List Attendee) (a : Attendee) (post : List Attendee)
    (hpre : ∀ b ∈ pre, b.emailAddress.address ≠ emailAddress)
    (ha : a.emailAddress.address = emailAddress) :
    findResponseType emailAddress (pre ++ a :: post) = a.responseType := by
  induction pre with
  | nil =>
    simp only [List.nil_append, findResponseType, beq_iff_eq, ha, if_true]
  | cons b rest ih =>
    have hne : (b.emailAddress.address == emailAddress) = false :=
      beq_eq_false_iff_ne.mpr (hpre b (List.mem_cons_self b rest))
    simp only [List.cons_append, findResponseType, hne, Bool.false_eq_true, if_false]
    exact ih (fun c hc => hpre c (List.mem_cons_of_mem b hc))

/-! ## Claims about the item mapper -/

/-- C1 (amended): for every mapped event, the normalized `IsAllDay` flag is
true iff both the mapped start time and the mapped end time, truncated to
whole-millisecond resolution, equal the zero time value. (The claim as
frozen says whole-second resolution; the code truncates to
`time.Millisecond`.) -/
theorem C1_isAllDay_millisecond (convertPS : String → MeetingResponseType)
    (convertAC : String → Sensitivity) (event : Event) (cal : CalendarListEntry) :
    (newCalendarItem convertPS convertAC event cal).IsAllDay = true ↔
      (timeIsZero (timeTruncate nsPerMillisecond
          (newCalendarItem convertPS convertAC event cal).Start) = true ∧
       timeIsZero (timeTruncate nsPerMillisecond
          (newCalendarItem convertPS convertAC event cal).End) = true) := by
  simp [CalendarItem.IsAllDay, Bool.and_eq_true]

/-- C1 counterexample: for the event starting two milliseconds past the
zero time (and ending at the zero time), both mapped times truncate to the
zero time at whole-second resolution, yet `IsAllDay` is false — so the
claim's second-resolution biconditional fails on the code. -/
theorem C1_second_resolution_fails :
    ¬ (((newCalendarItem sampleConvertPS sampleConvertAC eventC1 calSample).IsAllDay = true) ↔
       (timeIsZero (timeTruncate nsPerSecond
           (newCalendarItem sampleConvertPS sampleConvertAC eventC1 calSample).Start) = true ∧
        timeIsZero (timeTruncate nsPerSecond
           (newCalendarItem sampleConvertPS sampleConvertAC eventC1 calSample).End) = true)) := by
  decide

/-- C3: the mapping of a raw event into a normalized item is total (it is a
plain function into `CalendarItem` with no error outcome); a nil url or
location interface, a non-nil interface wrapping a nil pointer, and any
decode failure each yield the empty string, and a nil organizer yields an
absent organizer. -/
theorem C3_mapping_total_and_defensive (convertPS : String → MeetingResponseType)
    (convertAC : String → Sensitivity) (event : Event) (cal : CalendarListEntry) :
    ((newCalendarItem convertPS convertAC event cal).URL = unsafeToString event.url) ∧
    ((newCalendarItem convertPS convertAC event cal).Location = unsafeToString event.location) ∧
    (unsafeToString .nilInterface = "") ∧
    (unsafeToString .nilPointer = "") ∧
    (∀ msg, unsafeToString (.value (.error msg)) = "") ∧
    (event.organizer = none →
      (newCalendarItem convertPS convertAC event cal).Organizer = none) := by
  refine ⟨rfl, rfl, rfl, rfl, fun _ => rfl, fun h => ?_⟩
  simp [newCalendarItem, CalendarItem.Organizer, resolveOrganizer, h]

/-- C3 witness: the event with a failing url encoder, a typed-nil location
and no organizer maps to empty url and location strings and an absent
organizer. -/
theorem C3_witness :
    (newCalendarItem sampleConvertPS sampleConvertAC eventC3 calSample).URL = "" ∧
    (newCalendarItem sampleConvertPS sampleConvertAC eventC3 calSample).Location = "" ∧
    (newCalendarItem sampleConvertPS sampleConvertAC eventC3 calSample).Organizer = none := by
  have h := C3_mapping_total_and_defensive sampleConvertPS sampleConvertAC eventC3 calSample
  refine ⟨?_, ?_, h.2.2.2.2.2 rfl⟩
  · rw [h.1]; rfl
  · rw [h.2.1]; rfl

/-- C7: the top-level response type is `Unknown` unless some attendee's
address is exactly (case-sensitively) equal to the owning calendar's
account address, in which case it is the first such attendee's response
type; with no attendees it is `Unknown` regardless of the organizer. -/
theorem C7_responseType (convertPS : String → MeetingResponseType)
    (convertAC : String → Sensitivity) (emailAddress : String)
    (attendees : List Attendee) (event : Event) (cal : CalendarListEntry) :
    ((∀ a ∈ attendees, a.emailAddress.address ≠ emailAddress) →
      findResponseType emailAddress attendees = .Unknown) ∧
    (∀ pre a post, attendees = pre ++ a :: post →
      (∀ b ∈ pre, b.emailAddress.address ≠ emailAddress) →
      a.emailAddress.address = emailAddress →
      findResponseType emailAddress attendees = a.responseType) ∧
    (event.attendees = [] →
      (newCalendarItem convertPS convertAC event cal).ResponseType = .Unknown) ∧
    ((newCalendarItem convertPS convertAC event cal).ResponseType =
      findResponseType cal.emailAddress (resolveAttendees convertPS event.attendees)) := by
  refine ⟨fun h => findResponseType_no_match emailAddress attendees h,
          fun pre a post hsplit hpre ha => ?_, fun h => ?_, rfl⟩
  · rw [hsplit]; exact findResponseType_first_match emailAddress pre a post hpre ha
  · simp [newCalendarItem, CalendarItem.ResponseType, h, resolveAttendees, findResponseType]

/-- C7 witness: an event whose organizer address equals the owning
calendar's account address but which has no attendees maps to the
`Unknown` top-level response type, with the organizer present. -/
theorem C7_witness :
    (newCalendarItem sampleConvertPS sampleConvertAC eventC7 calSample).ResponseType = .Unknown ∧
    (newCalendarItem sampleConvertPS sampleConvertAC eventC7 calSample).Organizer =
      some { name := "Owner", address := "owner@example.com" } := by
  have h := C7_responseType sampleConvertPS sampleConvertAC "owner@example.com" [] eventC7 calSample
  exact ⟨h.2.2.1 rfl, rfl⟩

/-- C10: the normalized `CalendarItemID` always equals the normalized
`UID`: both accessors read the same raw-event UID field. -/
theorem C10_uid_eq_calendarItemID (convertPS : String → MeetingResponseType)
    (convertAC : String → Sensitivity) (event : Event) (cal : CalendarListEntry) :
    (newCalendarItem convertPS convertAC event cal).UID = event.uid ∧
    (newCalendarItem convertPS convertAC event cal).CalendarItemID = event.uid ∧
    (newCalendarItem convertPS convertAC event cal).UID =
      (newCalendarItem convertPS convertAC event cal).CalendarItemID :=
  ⟨rfl, rfl, rfl⟩

/-! ## Claims about discovery -/

/-- C2 (amended): within a discovery candidate, an href that cannot be
unescaped yields an error returned unchanged to the caller; but a
transport-successful response lacking the current-user-principal property
crashes with a nil-pointer dereference (it does not return an error), and
a response lacking the calendar-home-set property yields a successful
return of a nil home set (no error either). -/
theorem C2_missing_property_behaviour (pf : PropfindFn) (path : String)
    (ms : Multistatus) (r : DavResponse) (rs : List DavResponse)
    (ps : PropStat) (pss : List PropStat)
    (h1 : pf path .zero .currentUserPrincipalReq = .ok ms)
    (h2 : ms.responses = r :: rs)
    (h3 : r.propStats = ps :: pss) :
    (ps.prop.currentUserPrincipal = none →
      findCalendarHomeSet pf path = .panic "nil pointer dereference") ∧
    (∀ principal e, ps.prop.currentUserPrincipal = some principal →
      queryUnescape principal.href = .error e →
      findCalendarHomeSet pf path = .err e) ∧
    (∀ principal principalPath ms2 r2 rs2 ps2 pss2,
      ps.prop.currentUserPrincipal = some principal →
      queryUnescape principal.href = .ok principalPath →
      pf principalPath .zero .calendarHomeSetReq = .ok ms2 →
      ms2.responses = r2 :: rs2 →
      r2.propStats = ps2 :: pss2 →
      ps2.prop.calendarHomeSet = none →
      findCalendarHomeSet pf path = .ok none) := by
  refine ⟨fun hnone => ?_, fun principal e hsome hesc => ?_,
          fun principal principalPath ms2 r2 rs2 ps2 pss2 hsome hesc hok2 hr2 hps2 hchs => ?_⟩
  · simp [findCalendarHomeSet, h1, h2, h3, hnone]
  · simp [findCalendarHomeSet, h1, h2, h3, hsome, hesc]
  · simp [findCalendarHomeSet, h1, h2, h3, hsome, hesc, hok2, hr2, hps2, hchs]

/-- The successful propstat of `msC2`: no current-user-principal inside. -/
def psC2 : PropStat := { status := httpOK, prop := {} }

/-- The single response of `msC2`. -/
def respC2 : DavResponse := { href := "/", propStats := [psC2] }

/-- A multistatus whose single response carries a successful propstat with
no current-user-principal property. -/
def msC2 : Multistatus := { responses := [respC2] }

/-- A transport oracle that always answers with `msC2`. -/
def pfC2 : PropfindFn := fun _ _ _ => .ok msC2

/-- C2 counterexample: against `pfC2` the first property query succeeds at
the transport level but its response lacks the current-user-principal, and
the candidate crashes with a nil dereference instead of returning any
error. -/
theorem C2_counterexample :
    (findCalendarHomeSet pfC2 "").isErr = false ∧
    findCalendarHomeSet pfC2 "" = .panic "nil pointer dereference" :=
  ⟨rfl, rfl⟩

/-- C2 witness: the amended behaviour at the concrete oracle `pfC2`. -/
theorem C2_witness :
    findCalendarHomeSet pfC2 "" = .panic "nil pointer dereference" := by
  have h := C2_missing_property_behaviour pfC2 "" msC2 respC2 [] psC2 [] rfl rfl rfl
  exact h.1 rfl

/-- When every candidate in the list fails with a returned error, the
discovery loop returns the aggregate of the accumulated and per-candidate
errors, in order. -/
theorem discoverLoop_all_fail (pf : PropfindFn) (ps : List String)
    (es : String → Err) (errs : List Err)
    (h : ∀ p ∈ ps, findCalendarHomeSet pf p = .err (es p)) :
    discoverLoop pf ps errs = .err (WF11301 (errs ++ ps.map es)) := by
  induction ps generalizing errs with
  | nil => simp [discoverLoop]
  | cons p rest ih =>
    have hp := h p (List.mem_cons_self p rest)
    simp only [discoverLoop, hp]
    rw [ih (errs ++ [es p]) (fun q hq => h q (List.mem_cons_of_mem p hq))]
    simp [List.append_assoc]

/-- C4: when every discovery candidate fails, `discoverServer` returns one
aggregate error whose cause list has exactly one entry per candidate, in
candidate order. -/
theorem C4_aggregate_error (pf : PropfindFn) (es : String → Err)
    (h : ∀ p ∈ paths, findCalendarHomeSet pf p = .err (es p)) :
    discoverServer pf = .err (WF11301 (paths.map es)) ∧
    (paths.map es).length = paths.length := by
  refine ⟨?_, by simp⟩
  have := discoverLoop_all_fail pf paths es [] h
  simpa [discoverServer] using this

/-- A transport oracle on which every request fails. -/
def pfFail : PropfindFn := fun _ _ _ => .error (.transport "connection refused")

/-- C4 witness: against `pfFail` every candidate fails and the aggregate
error carries the four per-candidate failures in candidate order. -/
theorem C4_witness :
    discoverServer pfFail = .err (WF11301
      [.transport "connection refused", .transport "connection refused",
       .transport "connection refused", .transport "connection refused"]) := by
  have h := C4_aggregate_error pfFail (fun _ => .transport "connection refused")
    (fun p _ => rfl)
  exact h.1

/-- When the candidates split as `pre ++ succPath :: post`, every candidate
of `pre` fails with a returned error, and `succPath` succeeds, the
discovery loop succeeds with that candidate's result and attempts exactly
the candidates `pre ++ [succPath]`. -/
theorem discoverLoop_first_success (pf : PropfindFn) (pre post : List String)
    (succPath : String) (chs : Option CalendarHomeSet) (errs : List Err)
    (hfail : ∀ p ∈ pre, (findCalendarHomeSet pf p).isErr = true)
    (hsucc : findCalendarHomeSet pf succPath = .ok chs) :
    discoverLoop pf (pre ++ succPath :: post) errs = .ok chs ∧
    discoverLoopCalls pf (pre ++ succPath :: post) = pre ++ [succPath] := by
  induction pre generalizing errs with
  | nil =>
    constructor <;> simp [discoverLoop, discoverLoopCalls, hsucc]
  | cons p rest ih =>
    have hp : (findCalendarHomeSet pf p).isErr = true :=
      hfail p (List.mem_cons_self p rest)
    obtain ⟨e, he⟩ : ∃ e, findCalendarHomeSet pf p = .err e := by
      cases hcase : findCalendarHomeSet pf p with
      | ok v => rw [hcase] at hp; exact absurd hp (by simp [Outcome.isErr])
      | err e => exact ⟨e, rfl⟩
      | panic m => rw [hcase] at hp; exact absurd hp (by simp [Outcome.isErr])
    have hrest := ih (errs ++ [e]) (fun q hq => hfail q (List.mem_cons_of_mem p hq))
    constructor
    · simp only [List.cons_append, discoverLoop, he]
      exact hrest.1
    · simp only [List.cons_append, discoverLoopCalls, he]
      exact congrArg (List.cons p) hrest.2

/-- C5: discovery tries the fixed candidates strictly in order and
short-circuits on the first candidate on which both property queries
succeed: it attempts exactly the failing prefix plus that candidate, its
result is that candidate's calendar-home set, and the constructed client
is bound to that candidate's URL-unescaped calendar-home path. -/
theorem C5_first_success_wins (pf : PropfindFn) (pre post : List String)
    (succPath : String) (chs : Option CalendarHomeSet)
    (hsplit : paths = pre ++ succPath :: post)
    (hfail : ∀ p ∈ pre, (findCalendarHomeSet pf p).isErr = true)
    (hsucc : findCalendarHomeSet pf succPath = .ok chs) :
    discoverServer pf = .ok chs ∧
    discoverCalls pf = pre ++ [succPath] ∧
    (∀ c homePath user, chs = some c → queryUnescape c.href = .ok homePath →
      newClient pf user = .ok { path := homePath, emailAddress := user }) := by
  have h := discoverLoop_first_success pf pre post succPath chs [] hfail hsucc
  have hds : discoverServer pf = .ok chs := by
    rw [discoverServer, hsplit]; exact h.1
  refine ⟨hds, by rw [discoverCalls, hsplit]; exact h.2,
          fun c homePath user hc hesc => ?_⟩
  simp [newClient, hds, hc, hesc]

/-- The successful principal-carrying propstat served by `pfC5`. -/
def psC5principal : PropStat :=
  { status := httpOK,
    prop := { currentUserPrincipal := some { href := "/principal" } } }

/-- The principal-resolution response served by `pfC5` on `/caldav/st`. -/
def msC5principal : Multistatus :=
  { responses := [{ href := "/caldav/st", propStats := [psC5principal] }] }

/-- The successful home-set-carrying propstat served by `pfC5`. -/
def psC5home : PropStat :=
  { status := httpOK,
    prop := { calendarHomeSet := some { href := "/home" } } }

/-- The calendar-home response served by `pfC5` on `/principal`. -/
def msC5home : Multistatus :=
  { responses := [{ href := "/principal", propStats := [psC5home] }] }

/-- A transport oracle failing on the candidates `""` and `"/caldav"` and
succeeding on `"/caldav/st"`, resolving the principal `/principal` and the
calendar home `/home`. -/
def pfC5 : PropfindFn := fun path _ body =>
  match body with
  | .currentUserPrincipalReq =>
    if path == "/caldav/st" then .ok msC5principal
    else .error (.transport "404 not found")
  | .calendarHomeSetReq =>
    if path == "/principal" then .ok msC5home
    else .error (.transport "404 not found")
  | .calendarsReq => .error (.transport "404 not found")

/-- C5 witness: against `pfC5` discovery attempts exactly the first three
candidates, succeeds on `/caldav/st`, and the client binds to the
unescaped home path `/home`. -/
theorem C5_witness :
    discoverServer pfC5 = .ok (some { href := "/home" }) ∧
    discoverCalls pfC5 = ["", "/caldav", "/caldav/st"] ∧
    newClient pfC5 "user@example.com" =
      .ok { path := "/home", emailAddress := "user@example.com" } := by
  have h := C5_first_success_wins pfC5 ["", "/caldav"] ["/.well-known/caldav"]
    "/caldav/st" (some { href := "/home" }) rfl (by decide) (by rfl)
  exact ⟨h.1, h.2.1, h.2.2 { href := "/home" } "/home" "user@example.com" rfl (by rfl)⟩

/-! ## Claims about enumeration -/

/-- The per-response filter of the enumeration, stated declaratively for
comparison with `findCalendarsLoop`: the first propstat carries the
`httpOK` status and a supported-component-set containing a `VEVENT`
component. -/
def responseKeep (response : DavResponse) : Bool :=
  match response.propStats with
  | [] => false
  | propertyStatus :: _ =>
    propertyStatus.status == httpOK &&
      (match propertyStatus.prop.supportedCalendarComponentSet with
       | none => false
       | some componentSet =>
         componentSet.components.any (fun component => component.name == calendarType))

/-- The entry the enumeration builds for a kept response, stated
declaratively (the path is the unescaped href; under the hypotheses of the
filter theorem the unescape always succeeds, so the error default is never
exercised). -/
def specEntry (emailAddress : String) (response : DavResponse) : CalendarListEntry :=
  let propertyStatus := response.propStats.headD { status := "", prop := {} }
  { path :=
      match queryUnescape response.href with
      | .ok path => path
      | .error _ => "",
    emailAddress := emailAddress,
    displayName := propertyStatus.prop.displayName,
    timeZone := extractTimeZoneID propertyStatus.prop.calendarTimezone }

/-- Does `url.QueryUnescape` succeed on the string? -/
def unescapeOk (s : String) : Bool :=
  match queryUnescape s with
  | .ok _ => true
  | .error _ => false

/-- The enumeration loop returns exactly the kept responses, mapped to
entries in response order, whenever every response carries at least one
propstat and every kept response's href unescapes. -/
theorem findCalendarsLoop_filter (emailAddress : String)
    (responses : List DavResponse)
    (hnonempty : ∀ r ∈ responses, r.propStats ≠ [])
    (hesc : ∀ r ∈ responses, responseKeep r = true → unescapeOk r.href = true) :
    findCalendarsLoop emailAddress responses =
      .ok ((responses.filter responseKeep).map (specEntry emailAddress)) := by
  induction responses with
  | nil => rfl
  | cons r rest ih =>
    have hrest := ih (fun q hq => hnonempty q (List.mem_cons_of_mem r hq))
      (fun q hq => hesc q (List.mem_cons_of_mem r hq))
    cases hps : r.propStats with
    | nil => exact absurd hps (hnonempty r (List.mem_cons_self r rest))
    | cons ps pss =>
      have hkeep : responseKeep r =
          (ps.status == httpOK &&
            (match ps.prop.supportedCalendarComponentSet with
             | none => false
             | some componentSet =>
               componentSet.components.any (fun component => component.name == calendarType))) := by
        simp [responseKeep, hps]
      cases hstat : ps.status == httpOK with
      | false =>
        have hkf : responseKeep r = false := by rw [hkeep, hstat]; rfl
        simp [findCalendarsLoop, hps, hstat, hkf, hrest]
      | true =>
        cases hsccs : ps.prop.supportedCalendarComponentSet with
        | none =>
          have hkf : responseKeep r = false := by rw [hkeep, hstat, hsccs]; rfl
          simp [findCalendarsLoop, hps, hstat, hsccs, hkf, hrest]
        | some componentSet =>
          cases hany : componentSet.components.any
              (fun component => component.name == calendarType) with
          | false =>
            have hkf : responseKeep r = false := by rw [hkeep, hstat, hsccs]; simpa using hany
            simp [findCalendarsLoop, hps, hstat, hsccs, hany, hkf, hrest]
          | true =>
            have hkt : responseKeep r = true := by rw [hkeep, hstat, hsccs]; simpa using hany
            have hu : unescapeOk r.href = true :=
              hesc r (List.mem_cons_self r rest) hkt
            obtain ⟨path, hpath⟩ : ∃ path, queryUnescape r.href = .ok path := by
              cases hcase : queryUnescape r.href with
              | ok p => exact ⟨p, rfl⟩
              | error e => rw [unescapeOk, hcase] at hu; exact absurd hu (by simp)
            have hentry : specEntry emailAddress r =
                { path := path, emailAddress := emailAddress,
                  displayName := ps.prop.displayName,
                  timeZone := extractTimeZoneID ps.prop.calendarTimezone } := by
              simp [specEntry, hps, hpath]
            simp [findCalendarsLoop, hps, hstat, hsccs, hany, hpath,
              hrest, hkt, hentry]

/-- C6 (amended): whenever the enumeration's property query succeeds, every
response carries at least one propstat, and every kept response's href
unescapes, `findCalendars` returns exactly the entries whose first
propstat has the success status and whose supported-component-set contains
the event component type, in response order; entries supporting only
to-dos or journals are excluded without producing an error. -/
theorem C6_event_filter (c : ClientState) (pf : PropfindFn) (ms : Multistatus)
    (hms : pf c.path .one .calendarsReq = .ok ms)
    (hnonempty : ∀ r ∈ ms.responses, r.propStats ≠ [])
    (hesc : ∀ r ∈ ms.responses, responseKeep r = true → unescapeOk r.href = true) :
    findCalendars c pf =
      .ok ((ms.responses.filter responseKeep).map (specEntry c.emailAddress)) := by
  simp only [findCalendars, hms]
  exact findCalendarsLoop_filter c.emailAddress ms.responses hnonempty hesc

/-- A multistatus whose single response has an empty propstat list. -/
def msC6bad : Multistatus := { responses := [{ href := "/a", propStats := [] }] }

/-- A transport oracle always answering with `msC6bad`. -/
def pfC6bad : PropfindFn := fun _ _ _ => .ok msC6bad

/-- The client used in the enumeration scenarios. -/
def clientC6 : ClientState := { path := "/home", emailAddress := "owner@example.com" }

/-- C6 counterexample: on a response set containing a response with no
propstat entries, `findCalendars` does not return the filtered entry list
(which here would be the empty list) — it crashes with an index
out-of-range panic. -/
theorem C6_counterexample :
    findCalendars clientC6 pfC6bad ≠
      .ok ((msC6bad.responses.filter responseKeep).map (specEntry clientC6.emailAddress)) ∧
    findCalendars clientC6 pfC6bad = .panic "index out of range" := by
  have h2 : findCalendars clientC6 pfC6bad = .panic "index out of range" := rfl
  refine ⟨fun h => ?_, h2⟩
  rw [h2] at h
  exact Outcome.noConfusion h

/-- The property bag of the event-capable calendar response. -/
def propC6vevent : DavProp :=
  { displayName := "Events",
    calendarTimezone := some { id := "Europe/Berlin" },
    supportedCalendarComponentSet :=
      some { components := [{ name := "VEVENT" }, { name := "VTODO" }] } }

/-- An event-capable calendar response (escaped href, VEVENT and VTODO in
its component set). -/
def respC6vevent : DavResponse :=
  { href := "/cal%20a/", propStats := [{ status := httpOK, prop := propC6vevent }] }

/-- The property bag of the to-do-only calendar response. -/
def propC6vtodo : DavProp :=
  { displayName := "Tasks",
    supportedCalendarComponentSet := some { components := [{ name := "VTODO" }] } }

/-- A to-do-only calendar response (successful status, no VEVENT). -/
def respC6vtodo : DavResponse :=
  { href := "/cal-b/", propStats := [{ status := httpOK, prop := propC6vtodo }] }

/-- The property bag of the non-success response. -/
def propC6notfound : DavProp :=
  { displayName := "Gone",
    supportedCalendarComponentSet := some { components := [{ name := "VEVENT" }] } }

/-- A response whose per-item status is not the success status. -/
def respC6notfound : DavResponse :=
  { href := "/cal-c/",
    propStats := [{ status := "HTTP/1.1 404 Not Found", prop := propC6notfound }] }

/-- A successful response with no supported-component-set at all. -/
def respC6noset : DavResponse :=
  { href := "/cal-d/", propStats := [{ status := httpOK, prop := { displayName := "Bare" } }] }

/-- The mixed enumeration response set. -/
def msC6 : Multistatus :=
  { responses := [respC6vevent, respC6vtodo, respC6notfound, respC6noset] }

/-- A transport oracle always answering with `msC6`. -/
def pfC6 : PropfindFn := fun _ _ _ => .ok msC6

/-- C6 witness: of the four responses only the event-capable one survives
the filter, with its href unescaped (`%20` to a space) and its time zone
extracted; the to-do-only, non-success and set-less entries are dropped
without an error. -/
theorem C6_witness :
    findCalendars clientC6 pfC6 =
      .ok [{ path := "/cal a/", emailAddress := "owner@example.com",
             displayName := "Events", timeZone := "Europe/Berlin" }] := by
  have h := C6_event_filter clientC6 pfC6 msC6 rfl (by decide) (by decide)
  rw [h]
  rfl

/-! ## Claims about the event query -/

/-- The per-calendar query loop fails fast: when every calendar before
`cal` answers successfully and `cal`'s query fails, the loop returns
`cal`'s error. -/
theorem CalendarEventsLoop_fail_fast (convertPS : String → MeetingResponseType)
    (convertAC : String → Sensitivity) (qe : QueryEventsFn) (query : RangeQuery)
    (pre post : List CalendarListEntry) (cal : CalendarListEntry)
    (evs : CalendarListEntry → List Event) (err : Err)
    (hpre : ∀ c2 ∈ pre, qe c2.path query = .ok (evs c2))
    (hfail : qe cal.path query = .error err) :
    CalendarEventsLoop convertPS convertAC qe query (pre ++ cal :: post) = .err err := by
  induction pre with
  | nil => simp [CalendarEventsLoop, hfail]
  | cons c2 rest ih =>
    have h2 := hpre c2 (List.mem_cons_self c2 rest)
    simp only [List.cons_append, CalendarEventsLoop, h2, List.append_eq]
    rw [ih (fun d hd => hpre d (List.mem_cons_of_mem c2 hd))]

/-- C8: if the event query on any single enumerated calendar fails, the
whole `CalendarEvents` call returns that calendar's error and no events at
all (the result is the bare error outcome, never a partial list). -/
theorem C8_fail_fast (convertPS : String → MeetingResponseType)
    (convertAC : String → Sensitivity) (c : ClientState) (pf : PropfindFn)
    (qe : QueryEventsFn) (mkQuery : MkRangeQueryFn) (startUTC endUTC : GoTime)
    (query : RangeQuery) (cals pre post : List CalendarListEntry)
    (cal : CalendarListEntry) (evs : CalendarListEntry → List Event) (err : Err)
    (hq : mkQuery startUTC endUTC = .ok query)
    (hcals : findCalendars c pf = .ok cals)
    (hsplit : cals = pre ++ cal :: post)
    (hpre : ∀ c2 ∈ pre, qe c2.path query = .ok (evs c2))
    (hfail : qe cal.path query = .error err) :
    CalendarEvents c pf qe mkQuery convertPS convertAC startUTC endUTC = .err err := by
  simp only [CalendarEvents, hq, hcals, hsplit]
  exact CalendarEventsLoop_fail_fast convertPS convertAC qe query pre post cal evs err
    hpre hfail

/-- A query oracle failing on every calendar. -/
def qeFail : QueryEventsFn := fun _ _ => .error (.transport "report query failed")

/-- The range-query constructor used in the scenarios (always succeeds). -/
def mkQueryOk : MkRangeQueryFn := fun startUTC endUTC => .ok { startUTC := startUTC, endUTC := endUTC }

/-- The single calendar entry enumerated from `msC6`. -/
def entryC6 : CalendarListEntry :=
  { path := "/cal a/", emailAddress := "owner@example.com",
    displayName := "Events", timeZone := "Europe/Berlin" }

/-- C8 witness: with one enumerated calendar whose query fails, the whole
call returns that calendar's error. -/
theorem C8_witness :
    CalendarEvents clientC6 pfC6 qeFail mkQueryOk sampleConvertPS sampleConvertAC 0 100 =
      .err (.transport "report query failed") := by
  exact C8_fail_fast sampleConvertPS sampleConvertAC clientC6 pfC6 qeFail mkQueryOk 0 100
    { startUTC := 0, endUTC := 100 } [entryC6] [] [] entryC6 (fun _ => [])
    (.transport "report query failed") rfl (by rfl) rfl
    (fun d hd => absurd hd (List.not_mem_nil d)) rfl

/-- When every per-calendar query succeeds, the loop returns the mapped
events of all calendars concatenated in calendar order, each calendar's
events kept in response order. -/
theorem CalendarEventsLoop_concat (convertPS : String → MeetingResponseType)
    (convertAC : String → Sensitivity) (qe : QueryEventsFn) (query : RangeQuery)
    (cals : List CalendarListEntry) (evs : CalendarListEntry → List Event)
    (hok : ∀ cal ∈ cals, qe cal.path query = .ok (evs cal)) :
    CalendarEventsLoop convertPS convertAC qe query cals =
      .ok (cals.flatMap (fun cal =>
        (evs cal).map (fun event => newCalendarItem convertPS convertAC event cal))) := by
  induction cals with
  | nil => rfl
  | cons cal rest ih =>
    have h1 := hok cal (List.mem_cons_self cal rest)
    simp only [CalendarEventsLoop, h1]
    rw [ih (fun d hd => hok d (List.mem_cons_of_mem cal hd))]
    simp [List.flatMap_cons]

/-- C9: when every per-calendar event query succeeds, `CalendarEvents`
returns the mapped events of all calendars concatenated in calendar order
and, within each calendar, in the server's per-calendar response order —
no resorting or merging. -/
theorem C9_concatenation_order (convertPS : String → MeetingResponseType)
    (convertAC : String → Sensitivity) (c : ClientState) (pf : PropfindFn)
    (qe : QueryEventsFn) (mkQuery : MkRangeQueryFn) (startUTC endUTC : GoTime)
    (query : RangeQuery) (cals : List CalendarListEntry)
    (evs : CalendarListEntry → List Event)
    (hq : mkQuery startUTC endUTC = .ok query)
    (hcals : findCalendars c pf = .ok cals)
    (hok : ∀ cal ∈ cals, qe cal.path query = .ok (evs cal)) :
    CalendarEvents c pf qe mkQuery convertPS convertAC startUTC endUTC =
      .ok (cals.flatMap (fun cal =>
        (evs cal).map (fun event => newCalendarItem convertPS convertAC event cal))) := by
  simp only [CalendarEvents, hq, hcals]
  exact CalendarEventsLoop_concat convertPS convertAC qe query cals evs hok

/-- An event-capable property bag with no display name. -/
def propC9 : DavProp :=
  { supportedCalendarComponentSet := some { components := [{ name := "VEVENT" }] } }

/-- An enumeration response set carrying two event-capable calendars. -/
def msC9 : Multistatus :=
  { responses := [{ href := "/a/", propStats := [{ status := httpOK, prop := propC9 }] },
                  { href := "/b/", propStats := [{ status := httpOK, prop := propC9 }] }] }

/-- A transport oracle always answering with `msC9`. -/
def pfC9 : PropfindFn := fun _ _ _ => .ok msC9

/-- The first calendar enumerated from `msC9`. -/
def entryA : CalendarListEntry :=
  { path := "/a/", emailAddress := "owner@example.com", displayName := "", timeZone := "" }

/-- The second calendar enumerated from `msC9`. -/
def entryB : CalendarListEntry :=
  { path := "/b/", emailAddress := "owner@example.com", displayName := "", timeZone := "" }

/-- A minimal raw event with the given uid. -/
def simpleEvent (uid : String) : Event :=
  { uid := uid, summary := "", description := "", url := .nilInterface,
    dateStart := 0, dateEnd := 0, location := .nilInterface, organizer := none,
    attendees := [], accessClassification := "", created := 0,
    lastModified := none, recurrenceId := none }

/-- A query oracle answering two events on `/a/` and one on `/b/`. -/
def qeC9 : QueryEventsFn := fun path _ =>
  if path == "/a/" then .ok [simpleEvent "a1", simpleEvent "a2"]
  else .ok [simpleEvent "b1"]

/-- The per-calendar event lists served by `qeC9`. -/
def evsC9 : CalendarListEntry → List Event := fun cal =>
  if cal.path == "/a/" then [simpleEvent "a1", simpleEvent "a2"]
  else [simpleEvent "b1"]

/-- C9 witness: with two enumerated calendars answering two and one events
respectively, the result is the calendar-A items (in response order)
followed by the calendar-B item — calendar order then per-calendar
response order. -/
theorem C9_witness :
    CalendarEvents clientC6 pfC9 qeC9 mkQueryOk sampleConvertPS sampleConvertAC 0 100 =
      .ok [newCalendarItem sampleConvertPS sampleConvertAC (simpleEvent "a1") entryA,
           newCalendarItem sampleConvertPS sampleConvertAC (simpleEvent "a2") entryA,
           newCalendarItem sampleConvertPS sampleConvertAC (simpleEvent "b1") entryB] := by
  have hok : ∀ cal ∈ [entryA, entryB], qeC9 cal.path { startUTC := 0, endUTC := 100 } =
      .ok (evsC9 cal) := by
    intro cal hcal
    cases hcal with
    | head => rfl
    | tail _ h2 =>
      cases h2 with
      | head => rfl
      | tail _ h3 => cases h3
  have h := C9_concatenation_order sampleConvertPS sampleConvertAC clientC6 pfC9 qeC9
    mkQueryOk 0 100 { startUTC := 0, endUTC := 100 } [entryA, entryB] evsC9
    rfl (by rfl) hok
  rw [h]
  rfl
